import Mathlib

/-!
Verification of the Home-Digital-Twin demand-response pipeline.

The embedding follows the two Python source files:
* `app.py` — decision stage: a pandas row is read from the forecast table,
  the total raw load is summed over the appliance columns that are present,
  the "PPO" decision is `price >= 0.5` (peak) with a fixed 0.7 reduction of
  Heater and Washing Machine loads, and an XAI section computes four linear
  contribution weights whose argmax is reported as the primary driver.
* `train_models.py` — training stage: 24 future hourly timestamps starting
  one hour after the last historical timestamp, simulated occupancy (drawn
  from a pseudo-random stream) and a two-level price, per-appliance model
  predictions clipped to be non-negative.

Real-valued quantities are modelled over `ℚ` (all constants in the source
are exact decimals).  The pseudo-random source is modelled as an explicit
stream `ℕ → ℕ` determined by the seed; XGBoost models and the trigonometric
hour features are abstracted as function parameters, since the claims under
verification do not depend on their values.
-/

namespace HDT

/-- The appliance column list from `app.py` / `train_models.py`
(`appliances = ['Fridge', 'Heater', 'Fans', 'Lights', 'TV', 'Microwave',
'Washing Machine']`). -/
def appliances : List String :=
  ["Fridge", "Heater", "Fans", "Lights", "TV", "Microwave", "Washing Machine"]

/-- A forecast-table row at the decision stage: a partial map from column
name to numeric value.  `none` models a column absent from the CSV header
(pandas `row.get(col, default)` then returns the default). -/
def Row : Type := String → Option ℚ

/-- Build a row from an association list of present columns (first binding
wins, like a CSV header). -/
def mkRow : List (String × ℚ) → Row
  | [], _ => none
  | (c, v) :: rest, a => if a = c then some v else mkRow rest a

/-- `price = float(row.get('electricity_price', 0))` from `app.py`. -/
def rowPrice (r : Row) : ℚ := (r "electricity_price").getD 0

/-- `available_apps = [app for app in appliances if app in row.index]`. -/
def availableApps (r : Row) : List String :=
  appliances.filter (fun a => (r a).isSome)

/-- `total_raw_load = float(row[available_apps].sum())`: the sum of the
appliance columns that are present in the row. -/
def totalRawLoad (r : Row) : ℚ :=
  ((availableApps r).map (fun a => (r a).getD 0)).sum

/-- The result of the decision logic in `app.py`: the status string, the
baseline load, the optimized load and the reduction applied (0 when no
shedding happens). -/
structure DecisionResult where
  status : String
  raw_total_load : ℚ
  optimized_load : ℚ
  shed : ℚ
deriving DecidableEq, Repr

/-- The module-level decision logic of `app.py` ("Decision Logic (Triggered
at 0.5)"): if `price >= 0.5` the status is `CRITICAL (PEAK)` and
`reduction = 0.7 * Heater + 0.7 * Washing Machine` is subtracted from the
raw total load; otherwise the status is `OPTIMIZED (OFF-PEAK)` and the load
is unchanged. -/
def ppoDecision (r : Row) : DecisionResult :=
  let price := rowPrice r
  let total := totalRawLoad r
  if price ≥ 0.5 then
    let reduction := (r "Heater").getD 0 * 0.7 + (r "Washing Machine").getD 0 * 0.7
    { status := "CRITICAL (PEAK)", raw_total_load := total,
      optimized_load := total - reduction, shed := reduction }
  else
    { status := "OPTIMIZED (OFF-PEAK)", raw_total_load := total,
      optimized_load := total, shed := 0 }

/-- Pointwise update of a row: set column `a` to value `v`. -/
def setCol (r : Row) (a : String) (v : ℚ) : Row :=
  fun b => if b = a then some v else r b

/-- Concrete row: `price = 0.4`, total load `1.0` (the boundary instance the
spec asserts must be PEAK). -/
def rowA : Row := mkRow [("electricity_price", 0.4), ("Fridge", 1.0)]

/-- Concrete row: `price = 0.2`, total load `10` (well above any load
threshold named by the spec). -/
def rowB : Row := mkRow [("electricity_price", 0.2), ("Fridge", 10)]

/-- Concrete PEAK row realising the spec's shedding example:
`Heater = 1.0`, `Washing Machine = 0.5`, raw total `3.0`. -/
def rowC : Row :=
  mkRow [("electricity_price", 0.65), ("Fridge", 1.5), ("Heater", 1.0),
    ("Washing Machine", 0.5)]

/-- Concrete row whose `Heater` column is absent. -/
def rowD : Row := mkRow [("electricity_price", 0.6), ("Fridge", 2.0)]

/-- Concrete row carrying a negative load (`Fridge = -3`), reaching the
decision logic with a negative raw total. -/
def rowN : Row := mkRow [("electricity_price", 0.2), ("Fridge", -3)]

/-- Concrete PEAK row with non-negative loads (`Heater = 2.0`). -/
def rowE : Row := mkRow [("electricity_price", 0.9), ("Heater", 2.0)]

/- ### XAI attribution section of `app.py` -/

/-- `feat_names = ['Electricity Price', 'Total Demand', 'Occupancy', 'Hour
of Day']` from `app.py`. -/
def feat_names : List String :=
  ["Electricity Price", "Total Demand", "Occupancy", "Hour of Day"]

/-- The four contribution weights of the XAI section of `app.py`:
`price_impact = price * 1.5`, `demand_impact = total_raw_load / 5.0`,
`occ_impact = float(row.get('occupancy', 1)) * 0.1`,
`hour_impact = (abs(12 - hour_idx) / 12) * 0.2`. -/
def contributions (r : Row) (hour_idx : ℕ) : List ℚ :=
  [rowPrice r * 1.5,
   totalRawLoad r / 5.0,
   (r "occupancy").getD 1 * 0.1,
   |12 - (hour_idx : ℚ)| / 12 * 0.2]

/-- Tail recursion of `np.argmax`: scan the remaining entries, keeping the
index of the first maximal value seen so far. -/
def npArgmaxAux : List ℚ → ℕ → ℕ → ℚ → ℕ
  | [], _, best, _ => best
  | x :: xs, i, best, bv =>
    if x > bv then npArgmaxAux xs (i + 1) i x else npArgmaxAux xs (i + 1) best bv

/-- `np.argmax`: index of the first occurrence of the maximal entry
(`0` on the empty list, which numpy rejects). -/
def npArgmax : List ℚ → ℕ
  | [] => 0
  | x :: xs => npArgmaxAux xs 1 0 x

/-- The explanation artifact rendered by the XAI section: the feature
labels paired with their contribution weights, in the fixed order of
`feat_names`. -/
def attributionResult (r : Row) (hour_idx : ℕ) : List (String × ℚ) :=
  feat_names.zip (contributions r hour_idx)

/-- `feat_names[np.argmax(contributions)]`, the feature reported as the
primary driver in the interpretation message of `app.py`. -/
def primaryDriver (r : Row) (hour_idx : ℕ) : String :=
  feat_names.getD (npArgmax (contributions r hour_idx)) ""

/-- Concrete attribution input: `price = 0.6`, total load `2.0` (via the
`Fridge` column), `occupancy = 4`, used with `hour_idx = 12`. -/
def rowX : Row :=
  mkRow [("electricity_price", 0.6), ("Fridge", 2.0), ("occupancy", 4)]

/-- Concrete attribution input with a dominant demand weight:
`price = 0.2`, total load `5`, `occupancy = 1`. -/
def rowY : Row :=
  mkRow [("electricity_price", 0.2), ("Fridge", 5), ("occupancy", 1)]

/- ### Training stage (`train_models.py`) -/

/-- One row of the `future_df` table assembled by `train_models.py`.
Timestamps are modelled in whole hours (`datetime` is the absolute hour
count, `hour = datetime % 24` mirrors `dt.hour`); `hour_sin`/`hour_cos` hold
the cyclical encodings; `loads` holds one `(appliance, predicted_load)` pair
per appliance column, in the order of `appliances`. -/
structure FRow where
  datetime : ℕ
  hour : ℕ
  hour_sin : ℚ
  hour_cos : ℚ
  occupancy : ℕ
  electricity_price : ℚ
  loads : List (String × ℚ)
deriving DecidableEq, Repr

/-- Occupancy simulation from `train_models.py`:
`np.random.randint(3, 6) if (7<=h<=9 or 18<=h<=22) else np.random.randint(1, 3)`.
The pseudo-random source is an explicit stream `rng` determined by the seed;
`draw` is the index of the draw and `randint(a, b)` is modelled as
`a + rng draw % (b - a)`, which ranges over exactly `{a, …, b-1}`. -/
def simulateOccupancy (rng : ℕ → ℕ) (draw h : ℕ) : ℕ :=
  if (7 ≤ h ∧ h ≤ 9) ∨ (18 ≤ h ∧ h ≤ 22) then 3 + rng draw % 3
  else 1 + rng draw % 2

/-- Price simulation from `train_models.py`:
`0.65 if (7<=h<=10 or 18<=h<=22) else 0.25`. -/
def simulatePrice (h : ℕ) : ℚ :=
  if (7 ≤ h ∧ h ≤ 10) ∨ (18 ≤ h ∧ h ≤ 22) then 0.65 else 0.25

/-- The forecast assembly of `train_models.py`, steps 4–5: 24 future hourly
timestamps starting one hour after the last historical timestamp
(`future_dates = [last_timestamp + timedelta(hours=i) for i in range(1, 25)]`),
cyclical hour features, simulated occupancy and price, and per-appliance
model predictions clipped to be non-negative
(`future_df[app] = future_df[app].clip(lower=0)`).

`fsin`/`fcos` abstract the trigonometric encodings `sin(2π·h/24)` and
`cos(2π·h/24)` (irrational, hence kept as parameters of the embedding);
`models` abstracts the per-appliance trained XGBoost regressors, mapping a
feature vector `(hour_sin, hour_cos, occupancy, electricity_price)` to a
prediction; `rng` is the seed-determined pseudo-random stream. -/
def assemble_forecast (fsin fcos : ℕ → ℚ)
    (models : String → ℚ × ℚ × ℚ × ℚ → ℚ) (rng : ℕ → ℕ) (lastTs : ℕ) :
    List FRow :=
  (List.range 24).map (fun i =>
    let dt := lastTs + (i + 1)
    let h := dt % 24
    let occ := simulateOccupancy rng i h
    let price := simulatePrice h
    let fv := (fsin h, fcos h, (occ : ℚ), price)
    { datetime := dt, hour := h, hour_sin := fsin h, hour_cos := fcos h,
      occupancy := occ, electricity_price := price,
      loads := appliances.map (fun a => (a, max (models a fv) 0)) })

/-- The first forecast row assembled from the all-zero hour encodings, the
constant `-1` model (whose raw prediction is negative) and the all-zero
pseudo-random stream, starting from `last_timestamp = 0`: hour 1, off-peak
price `0.25`, low occupancy `1`, every load clipped to `0`. -/
def frow0 : FRow :=
  { datetime := 1, hour := 1, hour_sin := 0, hour_cos := 0, occupancy := 1,
    electricity_price := 0.25, loads := appliances.map (fun a => (a, 0)) }

/- ### Helper lemmas about the decision stage -/

/-- Dropping the absent columns before summing changes nothing, because an
absent column would contribute its default `0` anyway. -/
theorem sum_filter_isSome (r : Row) (l : List String) :
    ((l.filter (fun a => (r a).isSome)).map (fun a => (r a).getD 0)).sum
      = (l.map (fun a => (r a).getD 0)).sum := by
  induction l with
  | nil => simp
  | cons x xs ih =>
    cases hx : r x with
    | none => simp [List.filter_cons, hx, ih]
    | some v => simp [List.filter_cons, hx, ih]

/-- `total_raw_load` is the sum over the full appliance list with missing
columns defaulted to `0`. -/
theorem totalRawLoad_eq_sum (r : Row) :
    totalRawLoad r = (appliances.map (fun a => (r a).getD 0)).sum := by
  simpa [totalRawLoad, availableApps] using sum_filter_isSome r appliances

/-- `total_raw_load` expanded over the seven appliance columns. -/
theorem totalRawLoad_expand (r : Row) :
    totalRawLoad r = (r "Fridge").getD 0 + (r "Heater").getD 0 + (r "Fans").getD 0
      + (r "Lights").getD 0 + (r "TV").getD 0 + (r "Microwave").getD 0
      + (r "Washing Machine").getD 0 := by
  rw [totalRawLoad_eq_sum]
  simp [appliances]
  ring

/-- `npArgmax` on a four-element list picks an index whose entry bounds
every entry of the list (numpy's argmax returns a position of the maximum). -/
theorem argmax4_le (a b c d : ℚ) :
    ∀ w ∈ [a, b, c, d], w ≤ [a, b, c, d].getD (npArgmax [a, b, c, d]) 0 := by
  intro w hw
  simp only [List.mem_cons, List.not_mem_nil, or_false] at hw
  simp only [npArgmax, npArgmaxAux]
  split_ifs <;>
    rcases hw with rfl | rfl | rfl | rfl <;>
    simp_all [List.getD] <;>
    linarith

/-- Claim C1 (amended): the decision logic classifies a row PEAK if and only
if `price ≥ 0.5` (fixed threshold, inclusive boundary); the total load plays
no role in the classification. -/
theorem status_peak_iff_price (r : Row) :
    (ppoDecision r).status = "CRITICAL (PEAK)" ↔ 0.5 ≤ rowPrice r := by
  by_cases h : (0.5 : ℚ) ≤ rowPrice r
  · simp [ppoDecision, h]
  · simp [ppoDecision, h]

/-- Claim C1 counterexample: with the thresholds named by the claim
(`price_threshold = 0.4`, `load_threshold = 2.0`), the row with
`price = 0.4, total_load = 1.0` would have to be PEAK, and the row with
`price = 0.2, total_load = 10 > 2.0` would also have to be PEAK; the code
classifies both `OPTIMIZED (OFF-PEAK)`, because its rule is `price ≥ 0.5`
with no load disjunct. -/
theorem status_ignores_load_cex :
    rowPrice rowA = 0.4 ∧ totalRawLoad rowA = 1 ∧
      (ppoDecision rowA).status = "OPTIMIZED (OFF-PEAK)" ∧
    rowPrice rowB = 0.2 ∧ totalRawLoad rowB = 10 ∧
      (ppoDecision rowB).status = "OPTIMIZED (OFF-PEAK)" := by
  refine ⟨?_, ?_, ?_, ?_, ?_, ?_⟩ <;>
    norm_num +decide [rowPrice, rowA, rowB, mkRow, totalRawLoad, availableApps, appliances,
      ppoDecision, List.filter_cons, List.filter_nil]

/-- Claim C2: on a PEAK row with non-negative appliance loads the decision
logic returns `shed = 0.7 * (heater + washing_machine)` and
`optimized_load = max 0 (raw_total_load - shed)` (the clamp is vacuous
because the reduction never exceeds the raw total); on a NORMAL row it
returns `optimized_load = raw_total_load` and `shed = 0`. -/
theorem peak_shedding_formula (r : Row)
    (hnn : ∀ a ∈ appliances, 0 ≤ (r a).getD 0) :
    (0.5 ≤ rowPrice r →
      (ppoDecision r).shed
          = 0.7 * ((r "Heater").getD 0 + (r "Washing Machine").getD 0) ∧
      (ppoDecision r).optimized_load
          = max 0 ((ppoDecision r).raw_total_load - (ppoDecision r).shed)) ∧
    (rowPrice r < 0.5 →
      (ppoDecision r).optimized_load = (ppoDecision r).raw_total_load ∧
      (ppoDecision r).shed = 0) := by
  have h1 := hnn "Fridge" (by simp [appliances])
  have h2 := hnn "Heater" (by simp [appliances])
  have h3 := hnn "Fans" (by simp [appliances])
  have h4 := hnn "Lights" (by simp [appliances])
  have h5 := hnn "TV" (by simp [appliances])
  have h6 := hnn "Microwave" (by simp [appliances])
  have h7 := hnn "Washing Machine" (by simp [appliances])
  have hexp := totalRawLoad_expand r
  constructor
  · intro hp
    constructor
    · simp [ppoDecision, hp]
      ring
    · simp [ppoDecision, hp]
      linarith [hexp]
  · intro hp
    simp [ppoDecision, not_le.mpr hp]

/-- Claim C2 witness: on the spec's shedding example row
(`price = 0.65`, `Fridge = 1.5`, `Heater = 1.0`, `Washing Machine = 0.5`)
the formulas hold, with `raw = 3`, `shed = 1.05`, `optimized = 1.95`. -/
theorem peak_shedding_formula_witness :
    ((ppoDecision rowC).shed
        = 0.7 * ((rowC "Heater").getD 0 + (rowC "Washing Machine").getD 0) ∧
      (ppoDecision rowC).optimized_load
        = max 0 ((ppoDecision rowC).raw_total_load - (ppoDecision rowC).shed)) ∧
    (ppoDecision rowC).raw_total_load = 3 ∧
    (ppoDecision rowC).shed = 1.05 ∧
    (ppoDecision rowC).optimized_load = 1.95 := by
  refine ⟨(peak_shedding_formula rowC ?_).1 ?_, ?_, ?_, ?_⟩
  · intro a ha
    fin_cases ha <;> norm_num +decide [rowC, mkRow]
  · norm_num +decide [rowPrice, rowC, mkRow]
  all_goals
    norm_num +decide [ppoDecision, rowPrice, rowC, mkRow, totalRawLoad,
      availableApps, appliances, List.filter_cons, List.filter_nil]

/-- Claim C8: an appliance column absent from the row contributes zero to
the raw total (which equals the sum over all appliance columns with the
`row.get(col, 0)` default), and the decision result is exactly the same as
if the column were present with value `0` — the decision stage is a total
function, so a missing column never raises an error. -/
theorem missing_column_zero (r : Row) (a : String) (h : r a = none) :
    totalRawLoad r = (appliances.map (fun x => (r x).getD 0)).sum ∧
    ppoDecision (setCol r a 0) = ppoDecision r := by
  have hpt : ∀ b, ((setCol r a 0) b).getD 0 = (r b).getD 0 := by
    intro b
    by_cases hb : b = a
    · subst hb
      simp [setCol, h]
    · simp [setCol, hb]
  have htot : totalRawLoad (setCol r a 0) = totalRawLoad r := by
    rw [totalRawLoad_eq_sum, totalRawLoad_eq_sum]
    simp only [hpt]
  have hprice : rowPrice (setCol r a 0) = rowPrice r := by
    simp only [rowPrice, ← hpt]
  refine ⟨totalRawLoad_eq_sum r, ?_⟩
  simp only [ppoDecision, hprice, htot, hpt]

/-- Claim C8 witness: on the concrete row whose `Heater` column is absent,
the two conclusions hold. -/
theorem missing_column_zero_witness :
    totalRawLoad rowD = (appliances.map (fun x => (rowD x).getD 0)).sum ∧
    ppoDecision (setCol rowD "Heater" 0) = ppoDecision rowD :=
  missing_column_zero rowD "Heater" (by decide)

/-- Claim C9 (amended): the decision logic performs no negativity check.
A row whose raw total load is negative is processed like any other row: on
the NORMAL branch the result is returned with `optimized_load` equal to the
negative raw total — no `InvariantViolation` (or any other failure) exists
in the code. -/
theorem negative_load_no_error (r : Row) (hneg : totalRawLoad r < 0)
    (hp : rowPrice r < 0.5) :
    (ppoDecision r).status = "OPTIMIZED (OFF-PEAK)" ∧
    (ppoDecision r).optimized_load = totalRawLoad r ∧
    (ppoDecision r).optimized_load < 0 := by
  simp [ppoDecision, not_le.mpr hp]
  exact hneg

/-- Claim C9 counterexample: the row with `Fridge = -3` reaches the decision
logic with `raw_total_load = -3 < 0` and, far from failing, the logic
returns a complete `DecisionResult` whose optimized load is `-3`. -/
theorem negative_load_cex :
    totalRawLoad rowN = -3 ∧
    ppoDecision rowN
      = { status := "OPTIMIZED (OFF-PEAK)", raw_total_load := -3,
          optimized_load := -3, shed := 0 } := by
  constructor <;>
    norm_num +decide [ppoDecision, rowPrice, rowN, mkRow, totalRawLoad,
      availableApps, appliances, List.filter_cons, List.filter_nil,
      DecisionResult.mk.injEq]

/-- Claim C9 amended-theorem witness, at the `Fridge = -3` row. -/
theorem negative_load_no_error_witness :
    (ppoDecision rowN).status = "OPTIMIZED (OFF-PEAK)" ∧
    (ppoDecision rowN).optimized_load = totalRawLoad rowN ∧
    (ppoDecision rowN).optimized_load < 0 :=
  negative_load_no_error rowN
    (by norm_num +decide [rowN, mkRow, totalRawLoad, availableApps, appliances,
      List.filter_cons, List.filter_nil])
    (by norm_num +decide [rowPrice, rowN, mkRow])

/-- Claim C10: if every appliance column of the row is non-negative (with
the missing-column default `0`), the optimized load is non-negative even
though the code subtracts the reduction with no clamp: the reduction
`0.7 * Heater + 0.7 * Washing Machine` never exceeds the raw total. -/
theorem optimized_load_nonneg (r : Row)
    (hnn : ∀ a ∈ appliances, 0 ≤ (r a).getD 0) :
    0 ≤ (ppoDecision r).optimized_load := by
  have h1 := hnn "Fridge" (by simp [appliances])
  have h2 := hnn "Heater" (by simp [appliances])
  have h3 := hnn "Fans" (by simp [appliances])
  have h4 := hnn "Lights" (by simp [appliances])
  have h5 := hnn "TV" (by simp [appliances])
  have h6 := hnn "Microwave" (by simp [appliances])
  have h7 := hnn "Washing Machine" (by simp [appliances])
  have hexp := totalRawLoad_expand r
  by_cases hp : (0.5 : ℚ) ≤ rowPrice r
  · simp [ppoDecision, hp]
    rw [hexp]
    linarith
  · simp [ppoDecision, hp]
    rw [hexp]
    linarith

/-- Claim C10 witness: the PEAK row with `Heater = 2.0` has a non-negative
optimized load (`2.0 - 1.4 = 0.6`). -/
theorem optimized_load_nonneg_witness :
    0 ≤ (ppoDecision rowE).optimized_load :=
  optimized_load_nonneg rowE
    (by intro a ha; fin_cases ha <;> norm_num +decide [rowE, mkRow])

/-- Claim C3 (amended): the attribution artifact keeps the fixed feature
order of `feat_names` (it is not re-sorted by weight); the feature reported
as the primary driver is `feat_names[np.argmax(contributions)]`, whose
weight bounds every weight in the sequence. -/
theorem attribution_fixed_order_argmax (r : Row) (hour_idx : ℕ) :
    (attributionResult r hour_idx).map Prod.fst = feat_names ∧
    (attributionResult r hour_idx).map Prod.snd = contributions r hour_idx ∧
    primaryDriver r hour_idx
      = feat_names.getD (npArgmax (contributions r hour_idx)) "" ∧
    ∀ w ∈ contributions r hour_idx,
      w ≤ (contributions r hour_idx).getD (npArgmax (contributions r hour_idx)) 0 := by
  refine ⟨?_, ?_, rfl, ?_⟩
  · simp [attributionResult, contributions, feat_names]
  · simp [attributionResult, contributions, feat_names]
  · simpa [contributions] using
      argmax4_le (rowPrice r * 1.5) (totalRawLoad r / 5.0)
        ((r "occupancy").getD 1 * 0.1) (|12 - (hour_idx : ℚ)| / 12 * 0.2)

/-- Claim C3 witness: on the concrete row with dominant demand weight, the
weight `1` (Total Demand) is bounded by the argmax entry. -/
theorem attribution_fixed_order_argmax_witness :
    (1 : ℚ) ≤ (contributions rowY 0).getD (npArgmax (contributions rowY 0)) 0 :=
  (attribution_fixed_order_argmax rowY 0).2.2.2 1
    (by norm_num +decide [contributions, rowY, mkRow, rowPrice, totalRawLoad,
      availableApps, appliances, List.filter_cons, List.filter_nil])

/-- Claim C3 counterexample: on the row with `price = 0.2`, total load `5`,
`occupancy = 1` at hour `0`, the attribution artifact is
`[(Price, 0.3), (Total Demand, 1), (Occupancy, 0.1), (Hour, 0.2)]`: its
weights are not in descending order, and its top (first) entry is not the
reported primary driver, which is `Total Demand`. -/
theorem attribution_not_sorted_cex :
    attributionResult rowY 0
      = [("Electricity Price", 0.3), ("Total Demand", 1), ("Occupancy", 0.1),
         ("Hour of Day", 0.2)] ∧
    primaryDriver rowY 0 = "Total Demand" ∧
    ¬ ((attributionResult rowY 0).map Prod.snd).Sorted (· ≥ ·) ∧
    (attributionResult rowY 0).head? ≠ some ("Total Demand", 1) := by
  refine ⟨?_, ?_, ?_, ?_⟩ <;>
    norm_num +decide [attributionResult, primaryDriver, contributions, rowY, mkRow,
      rowPrice, totalRawLoad, availableApps, appliances, List.filter_cons,
      List.filter_nil, feat_names, npArgmax, npArgmaxAux, List.sorted_cons]

/-- Claim C4 (amended): on the claim's input (`price = 0.6`, total load `2`,
`occupancy = 4`) the code's scaling constants are `1.5`, `1/5`, `0.1` and
`0.2·|12-hour|/12` (there is no meal-time feature), giving weights
`0.9`, `0.4`, `0.4` and at most `0.2`, so "Electricity Price" ranks first
and is the reported primary driver. -/
theorem attribution_weights_at_example (r : Row) (h : ℕ)
    (hp : rowPrice r = 0.6) (ht : totalRawLoad r = 2)
    (ho : r "occupancy" = some 4) (hh : h ≤ 24) :
    contributions r h = [0.9, 0.4, 0.4, |12 - (h : ℚ)| / 12 * 0.2] ∧
    primaryDriver r h = "Electricity Price" := by
  have hcast : (h : ℚ) ≤ 24 := by exact_mod_cast hh
  have h0 : (0 : ℚ) ≤ (h : ℚ) := Nat.cast_nonneg h
  have habs : |12 - (h : ℚ)| ≤ 12 := by
    rw [abs_le]
    constructor <;> linarith
  have habs0 : 0 ≤ |12 - (h : ℚ)| := abs_nonneg _
  have hw : |12 - (h : ℚ)| / 12 * 0.2 ≤ 0.2 := by
    rw [div_mul_eq_mul_div, mul_comm]
    rw [div_le_iff₀ (by norm_num)]
    linarith
  have hc : contributions r h = [0.9, 0.4, 0.4, |12 - (h : ℚ)| / 12 * 0.2] := by
    simp [contributions, hp, ht, ho]
    norm_num
  refine ⟨hc, ?_⟩
  have hw09 : ¬ (|12 - (h : ℚ)| / 12 * 0.2 > 0.9) := by
    intro hgt
    linarith
  unfold primaryDriver
  rw [hc]
  have e1 : npArgmax [(0.9 : ℚ), 0.4, 0.4, |12 - (h : ℚ)| / 12 * 0.2] = 0 := by
    norm_num [npArgmax, npArgmaxAux, hw09]
    linarith
  rw [e1]
  rfl

/-- Claim C4 counterexample: on the claim's own input the code computes the
weights `[0.9, 0.4, 0.4, 0]` (at hour 12), not the claimed
`[3.3, 20/7, 1.6, 0.9]`. -/
theorem attribution_constants_cex :
    contributions rowX 12 = [0.9, 0.4, 0.4, 0] ∧
    contributions rowX 12 ≠ [3.3, 20 / 7, 1.6, 0.9] := by
  constructor <;>
    norm_num +decide [contributions, rowX, mkRow, rowPrice, totalRawLoad,
      availableApps, appliances, List.filter_cons, List.filter_nil]

/-- Claim C5: the forecast assembly is deterministic given the historical
input (last timestamp), the trained models, the hour encodings, and the
seed-determined pseudo-random stream: two invocations whose random streams
agree pointwise produce identical forecast rows. -/
theorem assemble_forecast_deterministic (fsin fcos : ℕ → ℚ)
    (models : String → ℚ × ℚ × ℚ × ℚ → ℚ) (rng1 rng2 : ℕ → ℕ) (lastTs : ℕ)
    (h : ∀ i, rng1 i = rng2 i) :
    assemble_forecast fsin fcos models rng1 lastTs
      = assemble_forecast fsin fcos models rng2 lastTs := by
  have hr : rng1 = rng2 := funext h
  rw [hr]

/-- Claim C5 witness: two runs with the same concrete stream yield the same
rows. -/
theorem assemble_forecast_deterministic_witness :
    assemble_forecast (fun _ => 0) (fun _ => 0) (fun _ _ => 1) (fun _ => 0) 0
      = assemble_forecast (fun _ => 0) (fun _ => 0) (fun _ _ => 1) (fun _ => 0) 0 :=
  assemble_forecast_deterministic (fun _ => 0) (fun _ => 0) (fun _ _ => 1)
    (fun _ => 0) (fun _ => 0) 0 (fun _ => rfl)

/-- Claim C6: every predicted load stored in any assembled forecast row is
non-negative, whatever the trained models return, because each prediction is
clipped (`.clip(lower=0)`) after the model is queried. -/
theorem forecast_loads_nonneg (fsin fcos : ℕ → ℚ)
    (models : String → ℚ × ℚ × ℚ × ℚ → ℚ) (rng : ℕ → ℕ) (lastTs : ℕ)
    (row : FRow) (p : String × ℚ)
    (hrow : row ∈ assemble_forecast fsin fcos models rng lastTs)
    (hp : p ∈ row.loads) : 0 ≤ p.2 := by
  simp only [assemble_forecast, List.mem_map] at hrow
  obtain ⟨i, hi, rfl⟩ := hrow
  simp only [List.mem_map] at hp
  obtain ⟨a, ha, rfl⟩ := hp
  exact le_max_right _ 0

/-- Claim C6 witness: `frow0` is the first row assembled from a model whose
raw prediction is `-1`, its `Fridge` load is the clipped value `0`, and the
theorem applies to it. -/
theorem forecast_loads_nonneg_witness :
    frow0 ∈ assemble_forecast (fun _ => 0) (fun _ => 0) (fun _ _ => -1) (fun _ => 0) 0 ∧
    ("Fridge", (0 : ℚ)) ∈ frow0.loads ∧
    (0 : ℚ) ≤ (("Fridge", (0 : ℚ)) : String × ℚ).2 := by
  have hrow : frow0
      ∈ assemble_forecast (fun _ => 0) (fun _ => 0) (fun _ _ => -1) (fun _ => 0) 0 := by
    simp only [assemble_forecast, List.mem_map]
    refine ⟨0, by norm_num, ?_⟩
    norm_num [frow0, simulateOccupancy, simulatePrice,
      max_eq_right (show (-1 : ℚ) ≤ 0 by norm_num)]
  have hload : ("Fridge", (0 : ℚ)) ∈ frow0.loads := by
    simp [frow0, appliances]
  exact ⟨hrow, hload,
    forecast_loads_nonneg (fun _ => 0) (fun _ => 0) (fun _ _ => -1) (fun _ => 0) 0
      _ _ hrow hload⟩

/-- Claim C7: the assembled forecast has exactly 24 rows, the first row's
timestamp is one hour after the last historical timestamp, and the
timestamps are consecutive hours in strictly increasing order (no gaps, no
duplicates). -/
theorem forecast_horizon_contiguous (fsin fcos : ℕ → ℚ)
    (models : String → ℚ × ℚ × ℚ × ℚ → ℚ) (rng : ℕ → ℕ) (lastTs : ℕ) :
    (assemble_forecast fsin fcos models rng lastTs).length = 24 ∧
    (assemble_forecast fsin fcos models rng lastTs).map FRow.datetime
      = (List.range 24).map (fun i => lastTs + (i + 1)) ∧
    ((assemble_forecast fsin fcos models rng lastTs).map FRow.datetime).head?
      = some (lastTs + 1) ∧
    List.Chain' (fun a b => b = a + 1)
      ((assemble_forecast fsin fcos models rng lastTs).map FRow.datetime) ∧
    List.Pairwise (· < ·)
      ((assemble_forecast fsin fcos models rng lastTs).map FRow.datetime) := by
  have hmap : (assemble_forecast fsin fcos models rng lastTs).map FRow.datetime
      = (List.range 24).map (fun i => lastTs + (i + 1)) := by
    simp only [assemble_forecast, List.map_map]
    rfl
  refine ⟨by simp [assemble_forecast], hmap, ?_, ?_, ?_⟩
  · rw [hmap]
    rfl
  · rw [hmap]
    rw [show List.range 24
        = [0, 1, 2, 3, 4, 5, 6, 7, 8, 9, 10, 11, 12, 13, 14, 15, 16, 17, 18, 19,
           20, 21, 22, 23] from rfl]
    simp only [List.map_cons, List.map_nil]
    repeat constructor
  · rw [hmap]
    exact List.Pairwise.map _ (fun a b hab => by omega) (List.pairwise_lt_range 24)

/-- Claim C4 amended-theorem witness, at the concrete row and hour 12. -/
theorem attribution_weights_at_example_witness :
    contributions rowX 12 = [0.9, 0.4, 0.4, |12 - ((12 : ℕ) : ℚ)| / 12 * 0.2] ∧
    primaryDriver rowX 12 = "Electricity Price" :=
  attribution_weights_at_example rowX 12
    (by norm_num +decide [rowPrice, rowX, mkRow])
    (by norm_num +decide [totalRawLoad, availableApps, appliances, rowX, mkRow,
      List.filter_cons, List.filter_nil])
    (by norm_num +decide [rowX, mkRow])
    (by norm_num)

end HDT
